import Mathlib

/-!
Verification of the lead lifecycle and outreach dispatch engine of
`agente.py` (autonomous affiliate-sales agent).  The Python source is
shallowly embedded: SQLite tables become Lean lists of records, the
external collaborators (Gemini oracle, Mailgun/Twilio/Telegram transports,
affiliate-sale APIs) become explicit oracle parameters, and exception
handling becomes `Except`/`Option` values.  Every definition is translated
from the source file; the one definition translated from the spec's own
words (`sharesNonEmptyContact`, used to compare the spec's dedup predicate
with the code's) is marked as such.
-/

namespace Agente

/-- A row of the `leads` table as created by `init_database` (columns
`id, nome, email, telefone, origem, interesses, data_coleta, status,
ultimo_contato, tentativas`).  `email`/`telefone` are `Option String`
because the Python values may be `None` (SQL `NULL`); `none` is `NULL`
and `some ""` is the empty string, which SQL treats as an ordinary value. -/
structure LeadRow where
  id : Nat
  nome : String
  email : Option String
  telefone : Option String
  origem : String
  interesses : String
  data_coleta : String
  status : String
  ultimo_contato : Option String
  tentativas : Nat
deriving DecidableEq

/-- A candidate lead dictionary as built by `collect_from_website` /
`collect_from_api` and passed to `save_leads`. -/
structure LeadCand where
  nome : String
  email : Option String
  telefone : Option String
  origem : String
  interesses : String
deriving DecidableEq

/-- A row of the `mensagens` table. -/
structure MsgRec where
  lead_id : Nat
  canal : String
  conteudo : String
  data_envio : String
  status : String
deriving DecidableEq

/-- A row of the `conversoes` table.  `valor` and `comissao` are SQLite
REAL in the source; they are modelled as integers, which is faithful for
every claim here (the claims are about which records are counted/summed,
not about floating-point rounding). -/
structure ConvRec where
  lead_id : Nat
  produto : String
  valor : Int
  data_conversao : String
  comissao : Int
deriving DecidableEq

/-! ## Phone normalization (`_formatar_telefone_telegram`, lines 434-448) -/

/-- Body of `_formatar_telefone_telegram`: strip non-digit characters,
prepend country code `55` when the digit string does not already start
with `55` (`numeros.startswith('55')`, rendered on the character list as
`take 2 == ['5', '5']`) and has exactly 11 digits, then prefix `+`. -/
def telefoneNormalizado (telefone : String) : String :=
  let numeros := telefone.toList.filter Char.isDigit
  let numeros :=
    if (!(numeros.take 2 == ['5', '5'])) && numeros.length == 11 then
      '5' :: '5' :: numeros
    else numeros
  String.mk ('+' :: numeros)

/-- `_formatar_telefone_telegram`: the Python body is wrapped in
`try/except` returning `None`, hence the `Option` result; the pure body
never raises, so the result is always `some`. -/
def formatarTelefoneTelegram (telefone : String) : Option String :=
  some (telefoneNormalizado telefone)

/-! ## Telegram send (`_send_telegram` and helpers, lines 411-519) -/

/-- Column list of the `leads` table created by `init_database`
(lines 87-100).  Note there is no `telegram_chat_id` column. -/
def leadsColumns : List String :=
  ["id", "nome", "email", "telefone", "origem", "interesses",
   "data_coleta", "status", "ultimo_contato", "tentativas"]

/-- Oracles for the external effects reached from `_send_telegram`:
the stored chat id a `SELECT telegram_chat_id` would return if the column
existed, the chat id discoverable from `get_updates`, the Twilio
WhatsApp/SMS transport results, the direct `send_message` result, and the
configured bot username. -/
structure TgEnv where
  storeChatId : String → Option Int
  updatesMatch : String → Option Int
  waOk : String → String → Bool
  smsOk : String → String → Bool
  directOk : Bool
  botUsername : String

/-- Body of `_get_telegram_chat_id` (lines 491-519) up to the first
raised exception: the `SELECT telegram_chat_id FROM leads` statement
raises `sqlite3.OperationalError` whenever the table schema lacks that
column, before the stored-id read or the `get_updates` scan (and its
persisting `UPDATE`) can run. -/
def getTelegramChatIdBody (env : TgEnv) (telefone : String) :
    Except String (Option Int) :=
  if "telegram_chat_id" ∈ leadsColumns then
    match env.storeChatId telefone with
    | some cid => .ok (some cid)
    | none => .ok (env.updatesMatch telefone)
  else .error "no such column: telegram_chat_id"

/-- `_get_telegram_chat_id`: the surrounding `try/except` turns any
exception into `None`. -/
def getTelegramChatId (env : TgEnv) (telefone : String) : Option Int :=
  match getTelegramChatIdBody env telefone with
  | .ok r => r
  | .error _ => none

/-- The Telegram deep link built in `_iniciar_conversa_telegram`
(line 454): `https://t.me/<bot>?start=contato_<phone without the +>`. -/
def deepLink (username telefone : String) : String :=
  "https://t.me/" ++ username ++ "?start=contato_" ++ telefone.drop 1

/-- The invitation text of `_iniciar_conversa_telegram` (lines 457-460). -/
def mensagemConvite (username telefone : String) : String :=
  "Olá! Temos uma mensagem importante para você no Telegram. " ++
  "Clique neste link para iniciar a conversa: " ++ deepLink username telefone

/-- `_iniciar_conversa_telegram` (lines 450-476): try the WhatsApp invite
first, then SMS; the second component records which transports were
attempted, in order. -/
def iniciarConversaTelegram (env : TgEnv) (telefone _mensagem : String) :
    Bool × List String :=
  let convite := mensagemConvite env.botUsername telefone
  if env.waOk telefone convite then (true, ["whatsapp"])
  else if env.smsOk telefone convite then (true, ["whatsapp", "sms"])
  else (false, ["whatsapp", "sms"])

/-- `_send_telegram` (lines 411-432): normalize the phone (`if not
telefone_formatado: return False` — falsy means `None` or the empty
string), look up a chat id, send directly when one is known, otherwise
run the opt-in invitation chain.  The second component is the list of
transports attempted. -/
def sendTelegram (env : TgEnv) (telefone mensagem : String) :
    Bool × List String :=
  match formatarTelefoneTelegram telefone with
  | none => (false, [])
  | some tf =>
    if tf = "" then (false, [])
    else
      match getTelegramChatId env tf with
      | some _ => (env.directOk, ["telegram_direct"])
      | none => iniciarConversaTelegram env tf mensagem

/-! ## Theorems about the Telegram channel (claims C1, C3, C8) -/

theorem telefoneNormalizado_ne_empty (t : String) : telefoneNormalizado t ≠ "" := by
  unfold telefoneNormalizado
  intro h
  have h2 := congrArg String.data h
  simp at h2

theorem getTelegramChatId_none (env : TgEnv) (t : String) :
    getTelegramChatId env t = none := by
  simp [getTelegramChatId, getTelegramChatIdBody, leadsColumns]

theorem sendTelegram_eq_iniciar (env : TgEnv) (t m : String) :
    sendTelegram env t m = iniciarConversaTelegram env (telefoneNormalizado t) m := by
  simp [sendTelegram, formatarTelefoneTelegram, telefoneNormalizado_ne_empty t,
    getTelegramChatId_none]

/-- A transport environment where the WhatsApp invite is accepted. -/
def envConviteOk : TgEnv :=
  { storeChatId := fun _ => none, updatesMatch := fun _ => none,
    waOk := fun _ _ => true, smsOk := fun _ _ => false,
    directOk := true, botUsername := "meubot" }

/-- Claim C1, counterexample.  On the input `""` (empty digit string) the
normalization does not fail: `_formatar_telefone_telegram` returns the
truthy string `"+"`, and `_send_telegram` does not return `False` at the
formatting check — with a transport that accepts the invite the overall
send attempt even succeeds. -/
theorem empty_digits_counterexample :
    formatarTelefoneTelegram "" = some "+" ∧
    (sendTelegram envConviteOk "" "oi").1 = true := by decide

/-- Claim C1, amended.  The concrete normalization example holds:
`"(11) 99999-8888"` with default country code 55 yields
`"+5511999998888"`.  But an input whose digit string is empty does not
fail with a formatting error: it normalizes to the truthy string `"+"`,
so `_send_telegram` proceeds past the formatting check into the usual
chat-id lookup / opt-in invitation path instead of returning `False`. -/
theorem phone_normalization_amended :
    formatarTelefoneTelegram "(11) 99999-8888" = some "+5511999998888" ∧
    (∀ telefone : String, telefone.toList.filter Char.isDigit = [] →
      formatarTelefoneTelegram telefone = some "+") ∧
    (∀ (env : TgEnv) (telefone mensagem : String),
      telefone.toList.filter Char.isDigit = [] →
      sendTelegram env telefone mensagem =
        iniciarConversaTelegram env "+" mensagem) := by
  have hn : ∀ telefone : String, telefone.toList.filter Char.isDigit = [] →
      telefoneNormalizado telefone = "+" := by
    intro telefone h
    unfold telefoneNormalizado
    rw [h]
    decide
  refine ⟨by decide, ?_, ?_⟩
  · intro telefone h
    rw [formatarTelefoneTelegram, hn telefone h]
  · intro env telefone mensagem h
    rw [sendTelegram_eq_iniciar, hn telefone h]

theorem phone_normalization_amended_witness :
    formatarTelefoneTelegram "abc" = some "+" :=
  phone_normalization_amended.2.1 "abc" (by decide)

/-- Claim C3.  The `leads` schema created by `init_database` has no
`telegram_chat_id` column, so `_get_telegram_chat_id` hits an SQL error
on its first `SELECT` and returns `None` for every phone number and
every environment (in particular the stored-id read and the
`get_updates` discovery scan are unreachable); consequently every
Telegram send goes through the `_iniciar_conversa_telegram` opt-in
invitation fallback, never the direct-send branch. -/
theorem telegram_chat_id_unreachable (env : TgEnv) (telefone mensagem : String) :
    getTelegramChatId env (telefoneNormalizado telefone) = none ∧
    "telegram_chat_id" ∉ leadsColumns ∧
    sendTelegram env telefone mensagem =
      iniciarConversaTelegram env (telefoneNormalizado telefone) mensagem :=
  ⟨getTelegramChatId_none env _, by decide, sendTelegram_eq_iniciar env telefone mensagem⟩

/-- Claim C8.  The opt-in invitation chain short-circuits at the first
successful transport: a successful WhatsApp invite yields success with
the SMS transport never attempted; a failed WhatsApp invite followed by
a successful SMS yields overall success; and the overall result is
failure exactly when both transports fail.  (By C3 the chat-handle
lookup always misses, so every `_send_telegram` call lands in this
chain.) -/
theorem optin_fallback_chain (env : TgEnv) (telefone mensagem : String) :
    (env.waOk (telefoneNormalizado telefone)
        (mensagemConvite env.botUsername (telefoneNormalizado telefone)) = true →
      sendTelegram env telefone mensagem = (true, ["whatsapp"])) ∧
    (env.waOk (telefoneNormalizado telefone)
        (mensagemConvite env.botUsername (telefoneNormalizado telefone)) = false →
     env.smsOk (telefoneNormalizado telefone)
        (mensagemConvite env.botUsername (telefoneNormalizado telefone)) = true →
      sendTelegram env telefone mensagem = (true, ["whatsapp", "sms"])) ∧
    ((sendTelegram env telefone mensagem).1 = false ↔
      env.waOk (telefoneNormalizado telefone)
        (mensagemConvite env.botUsername (telefoneNormalizado telefone)) = false ∧
      env.smsOk (telefoneNormalizado telefone)
        (mensagemConvite env.botUsername (telefoneNormalizado telefone)) = false) := by
  rw [sendTelegram_eq_iniciar]
  unfold iniciarConversaTelegram
  cases hwa : env.waOk (telefoneNormalizado telefone)
      (mensagemConvite env.botUsername (telefoneNormalizado telefone)) <;>
    cases hsms : env.smsOk (telefoneNormalizado telefone)
        (mensagemConvite env.botUsername (telefoneNormalizado telefone)) <;>
      simp [hwa, hsms]

/-- A transport environment where the WhatsApp invite is rejected and
the plain SMS is accepted. -/
def envWaFalha : TgEnv :=
  { storeChatId := fun _ => none, updatesMatch := fun _ => none,
    waOk := fun _ _ => false, smsOk := fun _ _ => true,
    directOk := true, botUsername := "meubot" }

theorem optin_fallback_chain_witness :
    sendTelegram envWaFalha "(11) 99999-8888" "oi" = (true, ["whatsapp", "sms"]) :=
  (optin_fallback_chain envWaFalha "(11) 99999-8888" "oi").2.1 rfl rfl

/-! ## Conversion monitor (`ConversionMonitor`, lines 554-704; claim C2) -/

/-- The names bound at module level in `agente.py`: the names bound by
the import block (lines 1-21) followed by the later module-level
assignments and definitions.  `timedelta` is not among them — line 6
imports only `datetime` from the `datetime` module. -/
def moduleGlobals : List String :=
  ["os", "time", "sqlite3", "logging", "List", "Dict", "Optional", "datetime",
   "requests", "BeautifulSoup", "webdriver", "By", "Options", "Service",
   "ChromeDriverManager", "load_dotenv", "genai", "pd", "schedule", "random",
   "MailgunClient", "TwilioClient", "telegram",
   "logger", "GEMINI_API_KEY", "gemini_model", "CONFIG", "init_database",
   "LeadCollector", "MessageGenerator", "MessageSender", "ConversionMonitor",
   "ReportGenerator", "AutonomousSalesAgent", "agent"]

/-- Python name resolution at module scope: an unbound name raises
`NameError` when evaluated. -/
def evalName (n : String) : Except String Unit :=
  if n ∈ moduleGlobals then .ok ()
  else .error ("NameError: name " ++ n ++ " is not defined")

/-- A conversion candidate dictionary as built inside the platform
checkers and passed to `_record_conversion`. -/
structure ConvCand where
  lead_id : Nat
  produto : String
  valor : Int
  comissao : Int
deriving DecidableEq

/-- `_check_hotmart_conversions` (lines 577-607).  The `headers` dict
evaluates `os.getenv` (name `os`), then the `params` dict evaluates
`datetime.now()` (name `datetime`) and next the bare name `timedelta` —
which raises before anything else runs.  `fetch` stands for the whole
remainder from the `requests.get` call on (HTTP fetch, JSON decoding,
`_find_lead_by_email` matching); it is an oracle parameter because the
code reaches it only if the names resolve.  The surrounding
`try/except Exception` turns any error into the empty list. -/
def checkHotmartConversions (fetch : Except String (List ConvCand)) : List ConvCand :=
  match (do evalName "os"; evalName "datetime"; evalName "timedelta"; fetch :
      Except String (List ConvCand)) with
  | .ok l => l
  | .error _ => []

/-- `_check_monetizze_conversions` (lines 609-640): same structure as the
Hotmart checker, with the `timedelta` evaluation in its `params` dict. -/
def checkMonetizzeConversions (fetch : Except String (List ConvCand)) : List ConvCand :=
  match (do evalName "os"; evalName "datetime"; evalName "timedelta"; fetch :
      Except String (List ConvCand)) with
  | .ok l => l
  | .error _ => []

/-- `_check_eduzz_conversions` (lines 642-673): same structure again. -/
def checkEduzzConversions (fetch : Except String (List ConvCand)) : List ConvCand :=
  match (do evalName "os"; evalName "datetime"; evalName "timedelta"; fetch :
      Except String (List ConvCand)) with
  | .ok l => l
  | .error _ => []

/-- `_record_conversion` (lines 681-704): insert a `conversoes` row and
set the lead's status to `convertido`. -/
def recordConversion (store : List LeadRow) (convs : List ConvRec)
    (c : ConvCand) (now : String) : List LeadRow × List ConvRec :=
  (store.map (fun l => if l.id = c.lead_id then { l with status := "convertido" } else l),
   convs ++ [⟨c.lead_id, c.produto, c.valor, now, c.comissao⟩])

/-- `check_conversions` (lines 559-575): run the three platform checkers
in order and record each returned conversion. -/
def checkConversions (fh fm fe : Except String (List ConvCand))
    (store : List LeadRow) (convs : List ConvRec) (now : String) :
    List LeadRow × List ConvRec :=
  let step := fun (st : List LeadRow × List ConvRec) (cs : List ConvCand) =>
    cs.foldl (fun p c => recordConversion p.1 p.2 c now) st
  step (step (step (store, convs) (checkHotmartConversions fh))
      (checkMonetizzeConversions fm))
    (checkEduzzConversions fe)

/-- Claim C2.  `timedelta` is never imported, so each platform checker
raises `NameError` while building its `params` dict — before its network
fetch — catches it, and returns the empty list, for every possible
outcome of the fetch; consequently `check_conversions` never inserts a
conversion record and never changes any lead's status. -/
theorem conversion_checkers_always_empty :
    "timedelta" ∉ moduleGlobals ∧
    (∀ fetch, checkHotmartConversions fetch = []) ∧
    (∀ fetch, checkMonetizzeConversions fetch = []) ∧
    (∀ fetch, checkEduzzConversions fetch = []) ∧
    (∀ (fh fm fe : Except String (List ConvCand)) (store : List LeadRow)
        (convs : List ConvRec) (now : String),
      checkConversions fh fm fe store convs now = (store, convs)) :=
  ⟨by decide, fun _ => rfl, fun _ => rfl, fun _ => rfl,
   fun _ _ _ _ _ _ => rfl⟩

/-! ## Lead store upsert (`save_leads`, lines 216-243; claims C4, C5) -/

/-- SQL equality of one column against one bound parameter, as used by
`SELECT id FROM leads WHERE email = ? OR telefone = ?`: `NULL` (Python
`None`) never compares equal to anything, while empty strings compare
like any other value. -/
def sqlEqOpt (col param : Option String) : Bool :=
  match col, param with
  | some a, some b => a == b
  | _, _ => false

/-- The duplicate check of `save_leads` (lines 220-224). -/
def isDuplicate (store : List LeadRow) (lead : LeadCand) : Bool :=
  store.any (fun r => sqlEqOpt r.email lead.email || sqlEqOpt r.telefone lead.telefone)

/-- SQLite `AUTOINCREMENT`: one more than the largest id ever used;
with no deletions this is one more than the largest id present. -/
def nextId (store : List LeadRow) : Nat :=
  store.foldl (fun m r => max m r.id) 0 + 1

/-- The row inserted by `save_leads` (lines 227-240): the candidate's
fields, `data_coleta = now`, and the schema defaults
`status = 'novo'`, `ultimo_contato = NULL`, `tentativas = 0`. -/
def mkLeadRow (store : List LeadRow) (lead : LeadCand) (now : String) : LeadRow :=
  ⟨nextId store, lead.nome, lead.email, lead.telefone, lead.origem,
   lead.interesses, now, "novo", none, 0⟩

/-- `save_leads` (lines 216-243): for each candidate in order, insert it
unless the duplicate check matches an existing row. -/
def saveLeads (store : List LeadRow) (leads : List LeadCand) (now : String) :
    List LeadRow :=
  leads.foldl
    (fun st lead => if isDuplicate st lead then st else st ++ [mkLeadRow st lead now])
    store

theorem sqlEqOpt_eq_true (a b : Option String) :
    sqlEqOpt a b = true ↔ b ≠ none ∧ a = b := by
  cases a <;> cases b <;> simp [sqlEqOpt]

theorem isDuplicate_iff (store : List LeadRow) (lead : LeadCand) :
    isDuplicate store lead = true ↔
      ∃ r ∈ store, (lead.email ≠ none ∧ r.email = lead.email) ∨
        (lead.telefone ≠ none ∧ r.telefone = lead.telefone) := by
  simp [isDuplicate, List.any_eq_true, sqlEqOpt_eq_true]

/-- Claim C4, amended and characterized.  `save_leads` on a single
candidate either leaves the store untouched (no merge, no update) or
appends exactly the new row; and it leaves the store untouched precisely
when some existing row has an email equal to the candidate's non-`NULL`
email or a phone equal to the candidate's non-`NULL` phone — SQL
equality, under which empty strings compare like any other value.  In
particular an email match alone (phone differing) blocks the insert, and
vice versa. -/
theorem save_leads_dedup (store : List LeadRow) (lead : LeadCand) (now : String) :
    (saveLeads store [lead] now = store ∨
     saveLeads store [lead] now = store ++ [mkLeadRow store lead now]) ∧
    (saveLeads store [lead] now = store ↔
      ∃ r ∈ store, (lead.email ≠ none ∧ r.email = lead.email) ∨
        (lead.telefone ≠ none ∧ r.telefone = lead.telefone)) := by
  have hs : saveLeads store [lead] now =
      if isDuplicate store lead then store else store ++ [mkLeadRow store lead now] := rfl
  by_cases hd : isDuplicate store lead
  · rw [hs, if_pos hd]
    exact ⟨Or.inl rfl, by simpa using (isDuplicate_iff store lead).mp hd⟩
  · rw [hs, if_neg hd]
    constructor
    · exact Or.inr rfl
    · constructor
      · intro h
        have := congrArg List.length h
        simp at this
      · intro h
        exact absurd ((isDuplicate_iff store lead).mpr h) hd

/-- Modelled from the spec's words — §3: "a lead is considered a
duplicate of an existing one if it shares a non-empty email OR a
non-empty phone with it".  Stated only to be compared against the code's
`isDuplicate`; the code is the authority. -/
def sharesNonEmptyContact (r : LeadRow) (lead : LeadCand) : Bool :=
  (match r.email, lead.email with
   | some a, some b => a == b && !(a == "")
   | _, _ => false) ||
  (match r.telefone, lead.telefone with
   | some a, some b => a == b && !(a == "")
   | _, _ => false)

/-- An existing lead whose email is the empty string. -/
def rowEmailVazio : LeadRow :=
  ⟨1, "Bia", some "", some "222", "site", "marketing",
   "2026-10-01T09:00:00", "novo", none, 0⟩

/-- A candidate whose email is also the empty string but whose phone
differs from every stored phone. -/
def candEmailVazio : LeadCand := ⟨"Caio", some "", some "111", "api", "vendas"⟩

/-- Claim C4, counterexample.  The candidate shares no non-empty email
and no non-empty phone with the stored lead (both emails are empty,
the phones differ), so by the claim it should be inserted; yet
`save_leads` does not insert it, because the SQL `email = ?` comparison
matches the two empty-string emails. -/
theorem save_leads_dedup_counterexample :
    sharesNonEmptyContact rowEmailVazio candEmailVazio = false ∧
    rowEmailVazio.telefone ≠ candEmailVazio.telefone ∧
    saveLeads [rowEmailVazio] [candEmailVazio] "2026-10-12T10:00:00" =
      [rowEmailVazio] := by decide

/-- A candidate with both contact fields present but empty. -/
def candSemContato : LeadCand := ⟨"", some "", some "", "api", ""⟩

/-- Claim C5, counterexample.  Starting from the empty store,
`save_leads` inserts a candidate whose email and phone are both empty:
the stored lead violates the claimed invariant "at least one of
email/phone is non-empty". -/
theorem store_invariant_counterexample :
    ∃ r ∈ saveLeads [] [candSemContato] "2026-10-12T10:00:00",
      r.email = some "" ∧ r.telefone = some "" := by decide

/-- Claim C5, amended.  `save_leads` performs no emptiness validation:
whenever a candidate with both contact fields empty passes the duplicate
check, it is inserted as stored, so the store can hold a lead whose
email and phone are both empty — the invariant is not enforced by any
store operation. -/
theorem store_invariant_amended (store : List LeadRow) (lead : LeadCand)
    (now : String) (he : lead.email = some "") (ht : lead.telefone = some "")
    (hdup : isDuplicate store lead = false) :
    ∃ r ∈ saveLeads store [lead] now,
      r.email = some "" ∧ r.telefone = some "" := by
  have hs : saveLeads store [lead] now = store ++ [mkLeadRow store lead now] := by
    have : saveLeads store [lead] now =
        if isDuplicate store lead then store
        else store ++ [mkLeadRow store lead now] := rfl
    rw [this, hdup]
    simp
  rw [hs]
  exact ⟨mkLeadRow store lead now, by simp, by simp [mkLeadRow, he, ht]⟩

theorem store_invariant_amended_witness :
    ∃ r ∈ saveLeads [] [candSemContato] "2026-10-12T11:00:00",
      r.email = some "" ∧ r.telefone = some "" :=
  store_invariant_amended [] candSemContato "2026-10-12T11:00:00" rfl rfl (by decide)

/-! ## Daily aggregator (`ReportGenerator`, lines 706-813; claim C6) -/

/-- SQLite `date(x)` on the ISO-8601 strings stored by
`datetime.now().isoformat()`: the part before the `T` separator. -/
def sqlDate (s : String) : String :=
  String.mk (s.toList.takeWhile (fun c => c ≠ 'T'))

/-- `_get_leads_collected` (lines 729-734):
`COUNT(*) FROM leads WHERE date(data_coleta) = today`. -/
def getLeadsCollected (today : String) (leads : List LeadRow) : Nat :=
  (leads.filter (fun l => sqlDate l.data_coleta == today)).length

/-- `_get_messages_sent` (lines 736-741): `COUNT(*) FROM mensagens WHERE
date(data_envio) = today AND status = 'enviado'`. -/
def getMessagesSent (today : String) (msgs : List MsgRec) : Nat :=
  (msgs.filter (fun m => sqlDate m.data_envio == today && m.status == "enviado")).length

/-- `_get_conversions` (lines 743-748):
`COUNT(*) FROM conversoes WHERE date(data_conversao) = today`. -/
def getConversions (today : String) (convs : List ConvRec) : Nat :=
  (convs.filter (fun c => sqlDate c.data_conversao == today)).length

/-- `_get_total_revenue` (lines 750-756): `SUM(comissao) FROM conversoes
WHERE date(data_conversao) = today` (`NULL` coalesced to 0). -/
def getTotalRevenue (today : String) (convs : List ConvRec) : Int :=
  ((convs.filter (fun c => sqlDate c.data_conversao == today)).map
    (fun c => c.comissao)).sum

/-- The `GROUP BY produto` groups of `_get_top_products`, in first-
appearance order. -/
def distinctProducts (convs : List ConvRec) : List String :=
  convs.foldl (fun acc c => if c.produto ∈ acc then acc else acc ++ [c.produto]) []

/-- `COUNT(*)` of one `GROUP BY produto` group. -/
def productSales (convs : List ConvRec) (p : String) : Nat :=
  (convs.filter (fun c => c.produto == p)).length

/-- `SUM(comissao)` of one `GROUP BY produto` group. -/
def productRevenue (convs : List ConvRec) (p : String) : Int :=
  ((convs.filter (fun c => c.produto == p)).map (fun c => c.comissao)).sum

/-- Stable insertion step for `ORDER BY receita DESC`. -/
def insertRowDesc (r : String × Nat × Int) :
    List (String × Nat × Int) → List (String × Nat × Int)
  | [] => [r]
  | x :: xs => if x.2.2 < r.2.2 then r :: x :: xs else x :: insertRowDesc r xs

/-- Stable sort for `ORDER BY receita DESC` (ties keep group order). -/
def sortByRevenueDesc : List (String × Nat × Int) → List (String × Nat × Int)
  | [] => []
  | x :: xs => insertRowDesc x (sortByRevenueDesc xs)

/-- `_get_top_products` (lines 758-770): `SELECT produto, COUNT(*),
SUM(comissao) FROM conversoes GROUP BY produto ORDER BY receita DESC
LIMIT 3`.  Note the query has no `WHERE` clause: it ranges over the
whole `conversoes` table, with no date restriction. -/
def getTopProducts (convs : List ConvRec) : List (String × Nat × Int) :=
  (sortByRevenueDesc ((distinctProducts convs).map
    (fun p => (p, productSales convs p, productRevenue convs p)))).take 3

/-- A conversion recorded the day before the report. -/
def convOntem : ConvRec := ⟨1, "produto1", 100, "2026-10-11T15:00:00", 50⟩

/-- Claim C6, counterexample.  With a single conversion dated yesterday,
the today-scoped counts are 0 and the today-scoped revenue is 0, yet
`_get_top_products` still reports that conversion: the top-products
computation is not scoped to today's calendar date. -/
theorem aggregator_scoping_counterexample :
    getConversions "2026-10-12" [convOntem] = 0 ∧
    getTotalRevenue "2026-10-12" [convOntem] = 0 ∧
    getTopProducts [convOntem] = [("produto1", 1, 50)] := by decide

theorem foldl_products_map (f : ConvRec → String) :
    ∀ (convs : List ConvRec) (acc : List String),
    List.foldl (fun acc c => if c.produto ∈ acc then acc else acc ++ [c.produto]) acc
      (convs.map (fun c => { c with data_conversao := f c })) =
    List.foldl (fun acc c => if c.produto ∈ acc then acc else acc ++ [c.produto]) acc
      convs := by
  intro convs
  induction convs with
  | nil => intro acc; rfl
  | cons c cs ih => intro acc; exact ih _

theorem productSales_map (f : ConvRec → String) (p : String) :
    ∀ convs : List ConvRec,
    productSales (convs.map (fun c => { c with data_conversao := f c })) p =
      productSales convs p := by
  intro convs
  induction convs with
  | nil => rfl
  | cons c cs ih =>
    simp only [List.map, productSales, List.filter] at *
    by_cases h : c.produto == p
    · simp [h] at *; omega
    · simp [h] at *; exact ih

theorem productRevenue_map (f : ConvRec → String) (p : String) :
    ∀ convs : List ConvRec,
    productRevenue (convs.map (fun c => { c with data_conversao := f c })) p =
      productRevenue convs p := by
  intro convs
  induction convs with
  | nil => rfl
  | cons c cs ih =>
    simp only [List.map, productRevenue, List.filter] at *
    by_cases h : c.produto == p
    · simp [h] at *; omega
    · simp [h] at *; exact ih

theorem getTopProducts_date_blind (f : ConvRec → String) (convs : List ConvRec) :
    getTopProducts (convs.map (fun c => { c with data_conversao := f c })) =
      getTopProducts convs := by
  unfold getTopProducts distinctProducts
  rw [foldl_products_map]
  congr 1
  congr 1
  apply List.map_congr_left
  intro p _
  rw [productSales_map, productRevenue_map]

/-- Claim C6, amended.  The counts of leads collected, messages sent and
conversions, and the commission sum, are scoped to today's store-local
calendar date: a record dated another day does not change them, and a
record dated today (with outcome `enviado`, for messages) raises the
count by exactly one.  The top-products ranking, however, is computed
over all conversions regardless of their timestamps: changing every
record's `data_conversao` arbitrarily leaves it unchanged. -/
theorem daily_aggregator_scoping (today : String) :
    (∀ (l : LeadRow) (ls : List LeadRow), sqlDate l.data_coleta ≠ today →
      getLeadsCollected today (l :: ls) = getLeadsCollected today ls) ∧
    (∀ (l : LeadRow) (ls : List LeadRow), sqlDate l.data_coleta = today →
      getLeadsCollected today (l :: ls) = getLeadsCollected today ls + 1) ∧
    (∀ (m : MsgRec) (ms : List MsgRec), sqlDate m.data_envio ≠ today →
      getMessagesSent today (m :: ms) = getMessagesSent today ms) ∧
    (∀ (m : MsgRec) (ms : List MsgRec), m.status ≠ "enviado" →
      getMessagesSent today (m :: ms) = getMessagesSent today ms) ∧
    (∀ (m : MsgRec) (ms : List MsgRec), sqlDate m.data_envio = today →
      m.status = "enviado" →
      getMessagesSent today (m :: ms) = getMessagesSent today ms + 1) ∧
    (∀ (c : ConvRec) (cs : List ConvRec), sqlDate c.data_conversao ≠ today →
      getConversions today (c :: cs) = getConversions today cs) ∧
    (∀ (c : ConvRec) (cs : List ConvRec), sqlDate c.data_conversao = today →
      getConversions today (c :: cs) = getConversions today cs + 1) ∧
    (∀ (c : ConvRec) (cs : List ConvRec), sqlDate c.data_conversao ≠ today →
      getTotalRevenue today (c :: cs) = getTotalRevenue today cs) ∧
    (∀ (c : ConvRec) (cs : List ConvRec), sqlDate c.data_conversao = today →
      getTotalRevenue today (c :: cs) = c.comissao + getTotalRevenue today cs) ∧
    (∀ (f : ConvRec → String) (cs : List ConvRec),
      getTopProducts (cs.map (fun c => { c with data_conversao := f c })) =
        getTopProducts cs) := by
  refine ⟨?_, ?_, ?_, ?_, ?_, ?_, ?_, ?_, ?_, getTopProducts_date_blind⟩ <;>
    intro r rs h
  case _ => simp [getLeadsCollected, List.filter, beq_eq_false_iff_ne.mpr h]
  case _ => simp [getLeadsCollected, List.filter, h]
  case _ => simp [getMessagesSent, List.filter, beq_eq_false_iff_ne.mpr h]
  case _ => simp [getMessagesSent, List.filter, beq_eq_false_iff_ne.mpr h]
  case _ =>
    intro h2
    simp [getMessagesSent, List.filter, h, h2]
  case _ => simp [getConversions, List.filter, beq_eq_false_iff_ne.mpr h]
  case _ => simp [getConversions, List.filter, h]
  case _ => simp [getTotalRevenue, List.filter, beq_eq_false_iff_ne.mpr h]
  case _ => simp [getTotalRevenue, List.filter, h]

theorem daily_aggregator_scoping_witness :
    getConversions "2026-10-12" [convOntem] = getConversions "2026-10-12" [] ∧
    getTotalRevenue "2026-10-12" [convOntem] = getTotalRevenue "2026-10-12" [] ∧
    getLeadsCollected "2026-10-12" [rowEmailVazio] =
      getLeadsCollected "2026-10-12" [] :=
  ⟨(daily_aggregator_scoping "2026-10-12").2.2.2.2.2.1 convOntem [] (by decide),
   (daily_aggregator_scoping "2026-10-12").2.2.2.2.2.2.2.1 convOntem [] (by decide),
   (daily_aggregator_scoping "2026-10-12").1 rowEmailVazio [] (by decide)⟩

/-! ## Dispatch engine (`MessageSender`, lines 289-552; claims C7, C9, C10) -/

/-- The `WHERE` clause of `_get_qualified_leads` (line 344):
`status = 'novo' OR (status = 'contatado' AND tentativas < 3)`. -/
def qualPred (l : LeadRow) : Bool :=
  l.status == "novo" || (l.status == "contatado" && decide (l.tentativas < 3))

/-- `ORDER BY data_coleta ASC`: byte-wise comparison of the stored
ISO-8601 text, which on such strings is chronological order. -/
def coletaOrder (a b : LeadRow) : Prop := a.data_coleta ≤ b.data_coleta

instance : DecidableRel coletaOrder :=
  fun a b => inferInstanceAs (Decidable (a.data_coleta ≤ b.data_coleta))

instance : IsTotal LeadRow coletaOrder :=
  ⟨fun a b => le_total a.data_coleta b.data_coleta⟩

instance : IsTrans LeadRow coletaOrder :=
  ⟨fun _ _ _ h1 h2 => le_trans h1 h2⟩

/-- `_get_qualified_leads` (lines 338-352): filter by `qualPred`, order
by `data_coleta` ascending (a stable sort; SQLite leaves tie order
unspecified, and every tie order satisfies the claims proved here),
`LIMIT limit`. -/
def getQualifiedLeads (store : List LeadRow) (limit : Nat) : List LeadRow :=
  (List.insertionSort coletaOrder (store.filter qualPred)).take limit

/-- Oracles for the per-lead external effects of one dispatch cycle:
`_select_product_for_lead` (its `random.choice` included),
`_select_channel_for_lead` (random), `generate_persuasive_message`
(Gemini plus template rendering; `""` means render failure), and
`_send_message` (the transport outcome; by C3 the Telegram path writes
nothing to the store, so a boolean outcome is faithful), plus the
`datetime.now()` timestamp. -/
structure SendEnv where
  productFor : LeadRow → Option String
  canalFor : LeadRow → String
  composeFor : LeadRow → String → String → String
  transportOk : LeadRow → String → String → Bool
  now : String

/-- The mutable state read and written by `send_messages`: the `leads`
table, the `mensagens` table and the in-memory `self.sent_today`
counter. -/
structure SendState where
  store : List LeadRow
  msgs : List MsgRec
  sentToday : Nat
deriving DecidableEq

/-- `_record_message` (lines 521-544): append the message row; when the
outcome is `enviado`, also set the lead's status to `contatado`, stamp
`ultimo_contato` and increment `tentativas`. -/
def recordMessage (store : List LeadRow) (msgs : List MsgRec)
    (lead_id : Nat) (canal conteudo now status : String) :
    List LeadRow × List MsgRec :=
  (if status = "enviado" then
     store.map (fun l => if l.id = lead_id then
       { l with
         status := "contatado"
         ultimo_contato := some now
         tentativas := l.tentativas + 1 } else l)
   else store,
   msgs ++ [⟨lead_id, canal, conteudo, now, status⟩])

/-- `_update_lead_status` (lines 546-552): set status to `contatado` and
stamp `ultimo_contato` (without touching `tentativas`). -/
def updateLeadStatus (store : List LeadRow) (lead_id : Nat) (now : String) :
    List LeadRow :=
  store.map (fun l => if l.id = lead_id then
    { l with
      status := "contatado"
      ultimo_contato := some now } else l)

/-- The `for lead in leads` loop of `send_messages` (lines 315-336):
break once `sent_today` reaches the cap; skip leads with no product
match or an empty composed message; otherwise send, record the outcome,
and on success bump the counter and update the lead a second time. -/
def sendLoop (env : SendEnv) (cap : Nat) : List LeadRow → SendState → SendState
  | [], st => st
  | l :: ls, st =>
    if cap ≤ st.sentToday then st
    else
      match env.productFor l with
      | none => sendLoop env cap ls st
      | some produto =>
        let canal := env.canalFor l
        let mensagem := env.composeFor l produto canal
        if mensagem = "" then sendLoop env cap ls st
        else
          let ok := env.transportOk l canal mensagem
          let status := if ok then "enviado" else "falha"
          let p := recordMessage st.store st.msgs l.id canal mensagem env.now status
          if ok then
            sendLoop env cap ls ⟨updateLeadStatus p.1 l.id env.now, p.2, st.sentToday + 1⟩
          else
            sendLoop env cap ls ⟨p.1, p.2, st.sentToday⟩

/-- `send_messages` (lines 307-336): return immediately when the daily
cap is already reached, otherwise query the qualified leads with
`LIMIT cap - sent_today` and run the loop. -/
def sendMessages (env : SendEnv) (cap : Nat) (st : SendState) : SendState :=
  if cap ≤ st.sentToday then st
  else sendLoop env cap (getQualifiedLeads st.store (cap - st.sentToday)) st

/-- The number of message records with outcome `enviado`. -/
def countEnviado (msgs : List MsgRec) : Nat :=
  msgs.countP (fun m => m.status == "enviado")

/-- The rows of the `leads` table with a given id, in order. -/
def rowsWithId (store : List LeadRow) (i : Nat) : List LeadRow :=
  store.filter (fun l => l.id == i)

theorem recordMessage_falha (store : List LeadRow) (msgs : List MsgRec)
    (lead_id : Nat) (canal conteudo now : String) :
    recordMessage store msgs lead_id canal conteudo now "falha" =
      (store, msgs ++ [⟨lead_id, canal, conteudo, now, "falha"⟩]) := rfl

theorem recordMessage_enviado (store : List LeadRow) (msgs : List MsgRec)
    (lead_id : Nat) (canal conteudo now : String) :
    recordMessage store msgs lead_id canal conteudo now "enviado" =
      (store.map (fun l => if l.id = lead_id then
         { l with
           status := "contatado"
           ultimo_contato := some now
           tentativas := l.tentativas + 1 } else l),
       msgs ++ [⟨lead_id, canal, conteudo, now, "enviado"⟩]) := rfl

theorem rowsWithId_map_other (i j : Nat) (f : LeadRow → LeadRow)
    (hf : ∀ l, (f l).id = l.id) (hij : j ≠ i) (store : List LeadRow) :
    rowsWithId (store.map (fun l => if l.id = j then f l else l)) i =
      rowsWithId store i := by
  induction store with
  | nil => rfl
  | cons l ls ih =>
    by_cases hl : l.id = j
    · simp only [List.map, rowsWithId, List.filter_cons] at *
      rw [if_pos hl]
      have h1 : ((f l).id == i) = false := by simp [hf l, hl, hij]
      have h2 : (l.id == i) = false := by simp [hl, hij]
      simp [h1, h2, ih]
    · simp only [List.map, rowsWithId, List.filter_cons] at *
      rw [if_neg hl]
      by_cases h2 : l.id = i <;> simp [h2, ih]

theorem sendLoop_spec (env : SendEnv) (cap : Nat) :
    ∀ (leads : List LeadRow) (st : SendState) (i : Nat),
    ∃ new : List MsgRec,
      (sendLoop env cap leads st).msgs = st.msgs ++ new ∧
      (sendLoop env cap leads st).sentToday = st.sentToday + countEnviado new ∧
      countEnviado new ≤ cap - st.sentToday ∧
      ((∀ m ∈ new, m.lead_id = i → m.status ≠ "enviado") →
        rowsWithId (sendLoop env cap leads st).store i = rowsWithId st.store i) := by
  intro leads
  induction leads with
  | nil =>
    intro st i
    exact ⟨[], by simp [sendLoop], by simp [sendLoop, countEnviado],
      by simp [countEnviado], fun _ => rfl⟩
  | cons l ls ih =>
    intro st i
    by_cases hcap : cap ≤ st.sentToday
    · refine ⟨[], ?_, ?_, ?_, ?_⟩ <;> simp [sendLoop, hcap, countEnviado]
    · cases hprod : env.productFor l with
      | none =>
        have hred : sendLoop env cap (l :: ls) st = sendLoop env cap ls st := by
          simp [sendLoop, hcap, hprod]
        rw [hred]
        exact ih st i
      | some produto =>
        by_cases hmsg : env.composeFor l produto (env.canalFor l) = ""
        · have hred : sendLoop env cap (l :: ls) st = sendLoop env cap ls st := by
            simp [sendLoop, hcap, hprod, hmsg]
          rw [hred]
          exact ih st i
        · cases hok : env.transportOk l (env.canalFor l)
              (env.composeFor l produto (env.canalFor l)) with
          | true =>
            have hred : sendLoop env cap (l :: ls) st =
                sendLoop env cap ls
                  ⟨updateLeadStatus
                      (st.store.map (fun l2 => if l2.id = l.id then
                        { l2 with
                          status := "contatado"
                          ultimo_contato := some env.now
                          tentativas := l2.tentativas + 1 } else l2))
                      l.id env.now,
                    st.msgs ++ [⟨l.id, env.canalFor l,
                      env.composeFor l produto (env.canalFor l), env.now, "enviado"⟩],
                    st.sentToday + 1⟩ := by
              simp [sendLoop, hcap, hprod, hmsg, hok, recordMessage]
            obtain ⟨new, h1, h2, h3, h4⟩ := ih
              ⟨updateLeadStatus
                  (st.store.map (fun l2 => if l2.id = l.id then
                    { l2 with
                      status := "contatado"
                      ultimo_contato := some env.now
                      tentativas := l2.tentativas + 1 } else l2))
                  l.id env.now,
                st.msgs ++ [⟨l.id, env.canalFor l,
                  env.composeFor l produto (env.canalFor l), env.now, "enviado"⟩],
                st.sentToday + 1⟩ i
            refine ⟨⟨l.id, env.canalFor l,
                env.composeFor l produto (env.canalFor l), env.now, "enviado"⟩ :: new,
              ?_, ?_, ?_, ?_⟩
            · rw [hred, h1]
              simp
            · rw [hred, h2]
              simp only [countEnviado, List.countP_cons]
              simp
              omega
            · simp only [countEnviado, List.countP_cons] at *
              simp at h3 ⊢
              omega
            · intro hno
              have hli : l.id ≠ i := by
                intro hcontra
                exact (hno _ (List.mem_cons_self _ _) hcontra) rfl
              rw [hred, h4 (fun m hm hmi => hno m (List.mem_cons_of_mem _ hm) hmi)]
              show rowsWithId (updateLeadStatus _ l.id env.now) i = _
              rw [updateLeadStatus]
              rw [rowsWithId_map_other i l.id
                (fun l2 => { l2 with
                  status := "contatado"
                  ultimo_contato := some env.now }) (fun _ => rfl) hli]
              rw [rowsWithId_map_other i l.id
                (fun l2 => { l2 with
                  status := "contatado"
                  ultimo_contato := some env.now
                  tentativas := l2.tentativas + 1 }) (fun _ => rfl) hli]
          | false =>
            have hred : sendLoop env cap (l :: ls) st =
                sendLoop env cap ls
                  ⟨st.store,
                    st.msgs ++ [⟨l.id, env.canalFor l,
                      env.composeFor l produto (env.canalFor l), env.now, "falha"⟩],
                    st.sentToday⟩ := by
              simp [sendLoop, hcap, hprod, hmsg, hok, recordMessage]
            obtain ⟨new, h1, h2, h3, h4⟩ := ih
              ⟨st.store,
                st.msgs ++ [⟨l.id, env.canalFor l,
                  env.composeFor l produto (env.canalFor l), env.now, "falha"⟩],
                st.sentToday⟩ i
            refine ⟨⟨l.id, env.canalFor l,
                env.composeFor l produto (env.canalFor l), env.now, "falha"⟩ :: new,
              ?_, ?_, ?_, ?_⟩
            · rw [hred, h1]
              simp
            · rw [hred, h2]
              simp only [countEnviado, List.countP_cons]
              simp
            · simp only [countEnviado, List.countP_cons] at *
              simp at h3 ⊢
              omega
            · intro hno
              rw [hred, h4 (fun m hm hmi => hno m (List.mem_cons_of_mem _ hm) hmi)]

/-- A lead with status `novo` whose attempt counter already equals the
ceiling — a state the program itself never builds (it increments
`tentativas` only together with setting status `contatado`), but a
legitimate store state for a claim quantified over every store state. -/
def leadNovoTeto : LeadRow :=
  ⟨1, "Ana", some "ana@x.com", some "111", "site", "marketing",
   "2026-10-01T08:00:00", "novo", none, 3⟩

/-- Claim C9, counterexample.  Over arbitrary store states the clause
"never returns a lead at or past the attempt ceiling" fails: a lead with
status `novo` and `tentativas = 3` passes the `WHERE` clause (`status =
'novo' OR ...`) and is returned even though it is at the ceiling. -/
theorem qualified_leads_counterexample :
    getQualifiedLeads [leadNovoTeto] 5 = [leadNovoTeto] ∧
    3 ≤ leadNovoTeto.tentativas := by decide

/-- Claim C9, amended.  For every store state in which every `novo` lead
has attempt counter 0 — an invariant of all states the program builds,
since `tentativas` is incremented only together with the transition to
`contatado` — `_get_qualified_leads` returns only leads with status
`novo`, or `contatado` with fewer than 3 attempts; never a `convertido`
lead nor one at or past the ceiling; at most `n` of them; ordered by
`data_coleta` ascending. -/
theorem qualified_leads_amended (store : List LeadRow) (n : Nat)
    (hinv : ∀ l ∈ store, l.status = "novo" → l.tentativas = 0) :
    (∀ l ∈ getQualifiedLeads store n,
      (l.status = "novo" ∨ (l.status = "contatado" ∧ l.tentativas < 3)) ∧
      l.status ≠ "convertido" ∧ l.tentativas < 3) ∧
    (getQualifiedLeads store n).length ≤ n ∧
    List.Sorted coletaOrder (getQualifiedLeads store n) := by
  refine ⟨?_, ?_, ?_⟩
  · intro l hl
    have hmem : l ∈ List.insertionSort coletaOrder (store.filter qualPred) :=
      List.mem_of_mem_take hl
    have hmem2 : l ∈ store.filter qualPred :=
      (List.mem_insertionSort coletaOrder).mp hmem
    have hstore := (List.mem_filter.mp hmem2).1
    have hq := (List.mem_filter.mp hmem2).2
    have hq2 : l.status = "novo" ∨ (l.status = "contatado" ∧ l.tentativas < 3) := by
      simpa [qualPred] using hq
    refine ⟨hq2, ?_, ?_⟩
    · rcases hq2 with h | h
      · rw [h]; decide
      · rw [h.1]; decide
    · rcases hq2 with h | h
      · have := hinv l hstore h; omega
      · exact h.2
  · exact List.length_take_le n _
  · exact List.Pairwise.sublist (List.take_sublist n _)
      (List.sorted_insertionSort coletaOrder _)

/-- A well-formed fresh lead used to instantiate the theorems. -/
def leadTeste : LeadRow :=
  ⟨1, "Duda", some "d@x.com", some "333", "site", "vendas",
   "2026-10-02T08:00:00", "novo", none, 0⟩

theorem qualified_leads_amended_witness :
    (getQualifiedLeads [leadTeste] 2).length ≤ 2 :=
  (qualified_leads_amended [leadTeste] 2 (by decide)).2.1

/-- Claim C7.  One invocation of `send_messages` appends some list of
message records of which at most `cap - sent_today₀` have outcome
`enviado` (0 when the pre-cycle counter already meets the cap, in which
case the cycle does nothing at all), and the counter is incremented
exactly once per `enviado` record: the final counter is the initial one
plus the number of `enviado` records produced. -/
theorem send_messages_cap_respect (env : SendEnv) (cap : Nat) (st : SendState) :
    (cap ≤ st.sentToday → sendMessages env cap st = st) ∧
    ∃ new : List MsgRec,
      (sendMessages env cap st).msgs = st.msgs ++ new ∧
      countEnviado new ≤ cap - st.sentToday ∧
      (sendMessages env cap st).sentToday = st.sentToday + countEnviado new := by
  by_cases hcap : cap ≤ st.sentToday
  · refine ⟨fun _ => by simp [sendMessages, hcap], ⟨[], ?_, ?_, ?_⟩⟩
    · simp [sendMessages, hcap]
    · simp [countEnviado]
    · simp [sendMessages, hcap, countEnviado]
  · obtain ⟨new, h1, h2, h3, _⟩ :=
      sendLoop_spec env cap (getQualifiedLeads st.store (cap - st.sentToday)) st 0
    exact ⟨fun h => absurd h hcap,
      ⟨new, by simpa [sendMessages, hcap] using h1, h3,
        by simpa [sendMessages, hcap] using h2⟩⟩

/-- An environment in which no lead has a matching product. -/
def envParado : SendEnv :=
  ⟨fun _ => none, fun _ => "email", fun _ _ _ => "", fun _ _ _ => false,
   "2026-10-12T12:00:00"⟩

/-- A state whose counter already equals the cap used below. -/
def stLimite : SendState := ⟨[], [], 2⟩

theorem send_messages_cap_respect_witness :
    sendMessages envParado 2 stLimite = stLimite :=
  (send_messages_cap_respect envParado 2 stLimite).1 (by decide)

/-- Claim C10.  A failed send appends a message record with outcome
`falha` and leaves the lead table untouched; an `enviado` outcome is
what advances the lead to `contatado` and increments `tentativas`; and
across a whole dispatch loop, every lead id for which no `enviado`
record was produced keeps its rows exactly as they were — failed sends
and skips leave the lead retryable on a later cycle. -/
theorem failed_send_frame_effect :
    (∀ (store : List LeadRow) (msgs : List MsgRec) (lead_id : Nat)
        (canal conteudo now : String),
      recordMessage store msgs lead_id canal conteudo now "falha" =
        (store, msgs ++ [⟨lead_id, canal, conteudo, now, "falha"⟩])) ∧
    (∀ (store : List LeadRow) (msgs : List MsgRec) (lead_id : Nat)
        (canal conteudo now : String),
      recordMessage store msgs lead_id canal conteudo now "enviado" =
        (store.map (fun l => if l.id = lead_id then
           { l with
             status := "contatado"
             ultimo_contato := some now
             tentativas := l.tentativas + 1 } else l),
         msgs ++ [⟨lead_id, canal, conteudo, now, "enviado"⟩])) ∧
    (∀ (env : SendEnv) (cap : Nat) (leads : List LeadRow) (st : SendState) (i : Nat),
      (∀ m ∈ ((sendLoop env cap leads st).msgs).drop st.msgs.length,
        m.lead_id = i → m.status ≠ "enviado") →
      rowsWithId (sendLoop env cap leads st).store i = rowsWithId st.store i) := by
  refine ⟨recordMessage_falha, recordMessage_enviado, ?_⟩
  intro env cap leads st i hno
  obtain ⟨new, h1, _, _, h4⟩ := sendLoop_spec env cap leads st i
  apply h4
  intro m hm
  apply hno
  rw [h1, List.drop_left]
  exact hm

/-- An environment whose transport rejects every send. -/
def envFalhaTransporte : SendEnv :=
  ⟨fun _ => some "produto1", fun _ => "email", fun _ _ _ => "oi",
   fun _ _ _ => false, "2026-10-12T14:00:00"⟩

theorem failed_send_frame_effect_witness :
    rowsWithId (sendLoop envFalhaTransporte 10 [leadTeste]
      ⟨[leadTeste], [], 0⟩).store 1 = rowsWithId [leadTeste] 1 :=
  failed_send_frame_effect.2.2 envFalhaTransporte 10 [leadTeste]
    ⟨[leadTeste], [], 0⟩ 1 (by decide)

end Agente
